import Mathlib

/-!
Verification of the Pamacea daemon core subsystems against their source:
the error taxonomy (`src/shared/errors/base.error.ts`, `command.error.ts`,
`docker.error.ts`), the async command executor
(`CommandExecutor` in `src/shared/utils/command-executor.ts`), the
pattern-scoring framework detector
(`src/services/detection/framework-detector.ts`), and the container
lifecycle manager (`src/services/docker/docker-manager.ts`).

JavaScript records (`Record<string, unknown>`) are modelled as association
lists with JS object-spread semantics; JS numbers appearing in scores are
modelled as exact rationals; asynchronous effects (filesystem probes,
spawned processes, the container engine) are modelled by explicit oracles
describing the outcome the environment would deliver, so every embedded
operation is a total computable function of its oracle.
-/

namespace Daemon

/-- A JSON-like value, modelling the `unknown` payloads carried in error
contexts and in serialized error records. -/
inductive JsonValue where
  | str (s : String)
  | num (n : Int)
  | bool (b : Bool)
  | null
  | arr (xs : List JsonValue)
  | obj (fields : List (String × JsonValue))

/-- An error context, `ErrorContext = Record<string, unknown>` in
`base.error.ts`, as an association list in JS insertion order. -/
abbrev ErrorContext := List (String × JsonValue)

/-- The `cause` slot of a JS error: either an `Error`-like value (with a
name, a message and possibly a `code` field, which is what
`DaemonError.toJSON` inspects via `instanceof Error`) or an arbitrary raw
value (what `fromJSON` stores back, since the deserialized cause is a plain
record). -/
inductive ErrorCause where
  | errorCause (name : String) (message : String) (code : Option String)
  | rawCause (v : JsonValue)

/-- `DaemonErrorOptions` from `base.error.ts`: optional context and cause. -/
structure DaemonErrorOptions where
  context : Option ErrorContext := none
  cause : Option ErrorCause := none

/-- The observable state of a `DaemonError` instance (`base.error.ts`):
name, message, stable code, context map, optional cause, stack text. -/
structure DaemonError where
  name : String
  message : String
  code : String
  context : ErrorContext
  cause : Option ErrorCause
  stack : String

/-- JS object spread `{...a, ...b}`: keys of `a` in order (values overridden
by `b` on collision), followed by the keys of `b` not present in `a`. -/
def recordMerge {β : Type} (a b : List (String × β)) : List (String × β) :=
  a.map (fun kv => (kv.1, (b.lookup kv.1).getD kv.2)) ++
    b.filter (fun kv => (a.lookup kv.1).isNone)

/-- The `DaemonError` constructor: `new DaemonError(message, code, options)`.
Sets `name` to the class name, `context` to `options?.context ?? {}` and
`cause` to `options?.cause`.  The `stack` text is environment-supplied; the
constructor is modelled as installing an empty stack. -/
def DaemonError.make (message : String) (code : String)
    (options : Option DaemonErrorOptions) : DaemonError :=
  { name := "DaemonError"
    message := message
    code := code
    context := (options.bind (·.context)).getD []
    cause := options.bind (·.cause)
    stack := "" }

/-- Serialization of the `cause` slot inside `DaemonError.toJSON`: an
`Error` cause becomes `{name, message, code?}`, anything else passes
through unchanged, and an absent cause is serialized as the absent value
(modelled by `null`, as `undefined` drops out of JSON transport). -/
def serializeCause : Option ErrorCause → JsonValue
  | some (.errorCause n m c) =>
      .obj [("name", .str n), ("message", .str m),
            ("code", match c with | some s => .str s | none => .null)]
  | some (.rawCause v) => v
  | none => .null

/-- `DaemonError.toJSON` from `base.error.ts`: the plain record
`{name, message, code, context, cause, stack}`. -/
def DaemonError.toJSON (e : DaemonError) : List (String × JsonValue) :=
  [("name", .str e.name),
   ("message", .str e.message),
   ("code", .str e.code),
   ("context", .obj e.context),
   ("cause", serializeCause e.cause),
   ("stack", .str e.stack)]

/-- The unchecked TS cast `data['x'] as string`: a string passes through,
anything else is not a string at runtime (modelled as the empty string,
which the round-trip theorems never rely on). -/
def asString : Option JsonValue → String
  | some (.str s) => s
  | _ => ""

/-- The unchecked TS cast `data['context'] as ErrorContext`: a record
passes through; an absent or non-record value behaves as absent (the
constructor then falls back to `{}` via `options?.context ?? {}`). -/
def asContext : Option JsonValue → Option ErrorContext
  | some (.obj fields) => some fields
  | _ => none

/-- `DaemonError.fromJSON` from `base.error.ts`: rebuilds the error through
the constructor from `message`/`code`/`cause`/`context`, then overwrites
`name` and `stack` from the record. -/
def DaemonError.fromJSON (data : List (String × JsonValue)) : DaemonError :=
  let base := DaemonError.make (asString (data.lookup "message"))
    (asString (data.lookup "code"))
    (some { context := asContext (data.lookup "context")
            cause := (data.lookup "cause").map ErrorCause.rawCause })
  { base with
    name := asString (data.lookup "name")
    stack := asString (data.lookup "stack") }

/-- `String.prototype.includes`, evaluated on character lists. -/
def charsInfix (needle : List Char) : List Char → Bool
  | [] => needle.isEmpty
  | c :: rest => needle.isPrefixOf (c :: rest) || charsInfix needle rest

/-- `haystack.includes(sub)` on JS strings. -/
def strIncludes (haystack sub : String) : Bool :=
  charsInfix sub.data haystack.data

/-! ## Async command executor (`src/shared/utils/command-executor.ts`)

A spawned attempt's interaction with the operating system is modelled by a
`SpawnOutcome` oracle: for each attempt index the environment reports
either resolution (stdout, stderr, elapsed time) or rejection (the caught
error's `killed`/`code === 'ENOENT'` flags, captured output, elapsed
time).  A rejection by the internal timeout race appears as a rejection
whose elapsed time is at least the configured timeout, which is exactly
what `resolveCommandError` classifies from. -/

/-- A command-execution error instance: the underlying `DaemonError`
together with the `command`/`exitCode`/`stdout`/`stderr` fields declared
on `CommandExecutionError` in `command.error.ts`. -/
structure CmdError where
  err : DaemonError
  command : String
  exitCode : Option Int
  stdout : String
  stderr : String

/-- The `CommandExecutionError` constructor (`command.error.ts`):
code `COMMAND_001`, context `{command, exitCode, stdout, stderr,
...options?.context}`. -/
def mkCommandExecutionError (message command : String) (exitCode : Option Int)
    (stdout stderr : String) (options : Option DaemonErrorOptions) : CmdError :=
  let ctx := recordMerge
    [("command", .str command),
     ("exitCode", match exitCode with | some n => .num n | none => .null),
     ("stdout", .str stdout),
     ("stderr", .str stderr)]
    ((options.bind (·.context)).getD [])
  { err := { DaemonError.make message "COMMAND_001"
               (some { context := some ctx, cause := options.bind (·.cause) }) with
             name := "CommandExecutionError" }
    command := command
    exitCode := exitCode
    stdout := stdout
    stderr := stderr }

/-- `new CommandNotFoundError(command)`. -/
def commandNotFoundError (command : String) : CmdError :=
  let base := mkCommandExecutionError ("Command not found: " ++ command)
    command none "" "" none
  { base with err := { base.err with name := "CommandNotFoundError" } }

/-- `new CommandTimeoutError(command, timeout)`. -/
def commandTimeoutError (command : String) (timeout : Nat) : CmdError :=
  let base := mkCommandExecutionError
    ("Command timed out after " ++ toString timeout ++ "ms: " ++ command)
    command none "" ""
    (some { context := some [("timeout", .num timeout)], cause := none })
  { base with err := { base.err with name := "CommandTimeoutError" } }

/-- `new CommandFailedError(command, exitCode, stdout, stderr)`. -/
def commandFailedError (command : String) (exitCode : Int)
    (stdout stderr : String) : CmdError :=
  let base := mkCommandExecutionError
    ("Command failed with exit code " ++ toString exitCode ++ ": " ++ command)
    command (some exitCode) stdout stderr none
  { base with err := { base.err with name := "CommandFailedError" } }

/-- `resolveCommandError` from `command-executor.ts`: "not found"-like
stderr text maps to command-not-found, an elapsed time reaching a truthy
(non-zero) timeout maps to timeout, anything else to a non-zero-exit
failure carrying `exitCode ?? -1`. -/
def resolveCommandError (command : String) (exitCode : Option Int)
    (stdout stderr : String) (duration : Nat) (timeout : Nat) : CmdError :=
  if strIncludes stderr "not found" || strIncludes stderr "command not found"
      || strIncludes stderr "no such file" then
    commandNotFoundError command
  else if 0 < timeout ∧ duration ≥ timeout then
    commandTimeoutError command timeout
  else
    commandFailedError command (exitCode.getD (-1)) stdout stderr

/-- `calculateRetryDelay` from `command-executor.ts`:
`min(baseDelay * multiplier^attempt, 30000)`. -/
def calculateRetryDelay (attempt baseDelay multiplier : Nat) : Nat :=
  min (baseDelay * multiplier ^ attempt) 30000

/-- `CommandResult` from `command-executor.ts`.  `exitCode` is `none` for
the JS `null`; `error` is present only on the synthesized failure entries
of `executeParallel`. -/
structure CommandResult where
  success : Bool
  stdout : String
  stderr : String
  exitCode : Option Int
  duration : Nat
  command : String
  attempts : Nat
  error : Option CmdError := none

/-- What the environment reports for one spawned attempt of a command:
either the promise resolved, or it rejected (possibly via the timeout
race) with the flags and captured output the catch block inspects. -/
inductive SpawnOutcome where
  | resolved (stdout stderr : String) (duration : Nat)
  | rejected (killed : Bool) (enoent : Bool)
      (stdout stderr : Option String) (duration : Nat)

/-- `CommandOptions` (the fields that influence the modelled observables;
`silent`, `cwd`, `env`, `input`, `maxBuffer` and `rejectOnError` only
shape the spawned process, which the `SpawnOutcome` oracle abstracts). -/
structure CommandOptions where
  timeout : Option Nat := none
  retries : Option Nat := none
  retryDelay : Option Nat := none
  retryBackoffMultiplier : Option Nat := none

/-- A `CommandExecutor` instance: its constructor-resolved default options
(`timeout ?? 30000`, `retries ?? 0`). -/
structure CommandExecutor where
  defaultTimeout : Nat := 30000
  defaultRetries : Nat := 0

/-- The module-level `commandExecutor` singleton (constructed with no
overrides). -/
def defaultCommandExecutor : CommandExecutor := {}

/-- `executeSingle` from `command-executor.ts`, given the environment's
outcome for this attempt.  On resolution it reports success with
`exitCode: 0` and `attempts: 1`; on rejection it classifies the failure.
The local `exitCode` starts as `null` and is reassigned `null` in both
inspected branches, so classification always receives `null`. -/
def CommandExecutor.executeSingle (spawn : SpawnOutcome) (command : String)
    (timeout : Nat) : Except CmdError CommandResult :=
  match spawn with
  | .resolved out errOut duration =>
      .ok { success := true, stdout := out, stderr := errOut,
            exitCode := some 0, duration := duration, command := command,
            attempts := 1 }
  | .rejected _killed _enoent so se duration =>
      .error (resolveCommandError command none (so.getD "") (se.getD "")
        duration timeout)

/-- The retry loop of `execute`: up to `remaining` further attempts,
starting at index `attempt`, remembering the last classified error.  The
first successful attempt short-circuits; exhaustion returns the last
error, or a bare `CommandExecutionError` when no attempt ran. -/
def CommandExecutor.executeAttempts (spawn : Nat → SpawnOutcome)
    (command : String) (timeout : Nat) :
    Nat → Nat → Option CmdError → Except CmdError CommandResult
  | _, 0, lastError =>
      .error (lastError.getD
        (mkCommandExecutionError command command none "" "" none))
  | attempt, remaining + 1, _lastError =>
      match CommandExecutor.executeSingle (spawn attempt) command timeout with
      | .ok r => .ok r
      | .error e =>
          CommandExecutor.executeAttempts spawn command timeout
            (attempt + 1) remaining (some e)

/-- `execute` from `command-executor.ts`: merge options over the instance
defaults, then run `retries + 1` attempts.  Backoff sleeps only shift
wall-clock time and are not otherwise observable. -/
def CommandExecutor.execute (exec : CommandExecutor)
    (spawn : Nat → SpawnOutcome) (command : String)
    (options : CommandOptions) : Except CmdError CommandResult :=
  let timeout := options.timeout.getD exec.defaultTimeout
  let retries := options.retries.getD exec.defaultRetries
  CommandExecutor.executeAttempts spawn command timeout 0 (retries + 1) none

/-- An environment in which the first two attempts of a command reject
with a plain non-zero exit and the third attempt resolves. -/
def failTwiceThenSucceed : Nat → SpawnOutcome := fun attempt =>
  if attempt ≥ 2 then .resolved "done" "" 5
  else .rejected false false none (some "boom") 5

/-! ## Parallel execution (`executeParallel`)

`executeParallel` is modelled by its event-loop sequentialization: the
batch callbacks are all dispatched synchronously before any of them can
complete, so the `if (shouldStop) return null` guard inside a callback
never fires for a batch that has started — every command of a dispatched
batch runs and records its entry — and `shouldStop` is only observed at
the head of the loop, between batches. -/

/-- `CommandDefinition` from `command-executor.ts`. -/
structure CommandDefinition where
  id : String
  command : String
  options : CommandOptions := {}

/-- One dispatched batch: each command runs `execute` to completion and
stores its entry (`results.set`), a failed `Result` being converted to the
synthesized failure `CommandResult` from the source. -/
def runGroup (exec : CommandExecutor) (spawn : String → Nat → SpawnOutcome)
    (batch : List CommandDefinition) : List (String × CommandResult) :=
  batch.map (fun cmd =>
    match CommandExecutor.execute exec (spawn cmd.command) cmd.command
        cmd.options with
    | .ok data => (cmd.id, data)
    | .error e => (cmd.id,
        { success := false, stdout := "", stderr := e.stderr,
          exitCode := e.exitCode, duration := 0, command := cmd.command,
          attempts := 1, error := some e }))

/-- The batch slicing `commands.slice(i, i + concurrency)` of the loop
`for (i = 0; i < commands.length; i += concurrency)`.  With
`concurrency = 0` the source loop never advances; that unreachable case is
modelled as producing no groups. -/
def sliceGroups {α : Type} : Nat → List α → List (List α)
  | _, [] => []
  | 0, _ :: _ => []
  | c + 1, x :: xs =>
      ((x :: xs).take (c + 1)) :: sliceGroups (c + 1) ((x :: xs).drop (c + 1))
termination_by c l => l.length
decreasing_by simp; omega

/-- The batch loop of `executeParallel`: skip everything once `shouldStop`
is observed at a group boundary; otherwise run the whole group and raise
`shouldStop` if `stopOnError` is set and some command of the group
failed. -/
def processGroups (exec : CommandExecutor)
    (spawn : String → Nat → SpawnOutcome) (stopOnError : Bool) :
    Bool → List (List CommandDefinition) → List (String × CommandResult)
  | _, [] => []
  | shouldStop, g :: gs =>
      if shouldStop then []
      else
        let res := runGroup exec spawn g
        res ++ processGroups exec spawn stopOnError
          (shouldStop || (stopOnError && res.any (fun r => !r.2.success))) gs

/-- `ParallelExecutionResult` from `command-executor.ts`; `results` is the
`Map` in insertion order.  The wall-clock `duration` is environment time,
modelled as `0`. -/
structure ParallelExecutionResult where
  results : List (String × CommandResult)
  success : Bool
  duration : Nat
  successful : Nat
  failed : Nat
  total : Nat

/-- `executeParallel` from `command-executor.ts`; `concurrency = none`
models the default `Infinity` (a single batch containing everything). -/
def CommandExecutor.executeParallel (exec : CommandExecutor)
    (spawn : String → Nat → SpawnOutcome)
    (commands : List CommandDefinition) (concurrency : Option Nat)
    (stopOnError : Bool) : ParallelExecutionResult :=
  let groups := match concurrency with
    | none => if commands.isEmpty then [] else [commands]
    | some c => sliceGroups c commands
  let run := processGroups exec spawn stopOnError false groups
  let failedCount := (run.filter (fun r => !r.2.success)).length
  { results := run
    success := failedCount = 0
    duration := 0
    successful := (run.filter (fun r => r.2.success)).length
    failed := failedCount
    total := commands.length }

/-! ## Pattern-scoring detector (`src/services/detection/framework-detector.ts`)

The project tree is a `World`: a map from absolute paths to file contents.
`fs.access` and `fs.readFile` are lookups in it (each call is one
filesystem probe, counted explicitly so that cache claims about probing
are statable).  `JSON.parse` composed with the unchecked cast to
`PackageJson` is an ambient `parse` function supplied to the operations;
a parse miss (malformed manifest) is `none`, matching the `catch` that
returns `null`. -/

/-- The dependency scopes of `PackageJson` that the detector reads. -/
structure PackageJson where
  dependencies : Option (List (String × String)) := none
  devDependencies : Option (List (String × String)) := none

/-- A pattern's `scope` field. -/
inductive DepScope where
  | dependencies
  | devDependencies
  | both

/-- The scope as the string it interpolates into evidence text. -/
def DepScope.label : DepScope → String
  | .dependencies => "dependencies"
  | .devDependencies => "devDependencies"
  | .both => "both"

/-- A JS regular expression, abstracted by its `test` predicate. -/
structure JsRegex where
  test : String → Bool

/-- JS whitespace (`\s`), restricted to the characters that can occur in
the serialized dependency records the catalogue's regexes run on. -/
def isJsWs (c : Char) : Bool :=
  c = ' ' || c = '\t' || c = '\n' || c = '\r'

/-- Drop leading whitespace. -/
def skipJsWs : List Char → List Char
  | [] => []
  | c :: rest => if isJsWs c then skipJsWs rest else c :: rest

/-- Whether the next character is a colon. -/
def headIsColon : List Char → Bool
  | ':' :: _ => true
  | _ => false

/-- Scan for an occurrence of `needle` followed by `\s*` and a colon. -/
def scanKeyColon (needle : List Char) : List Char → Bool
  | [] => false
  | c :: rest =>
      (needle.isPrefixOf (c :: rest) &&
        headIsColon (skipJsWs ((c :: rest).drop needle.length)))
        || scanKeyColon needle rest

/-- The catalogue's dependency regexes `/"KEY"\s*:/`. -/
def depKeyRegex (key : String) : JsRegex :=
  ⟨fun s => scanKeyColon ("\"" ++ key ++ "\"").data s.data⟩

/-- `DetectionPattern`: the tagged union from `detection.types.ts`
(file-exists, package-json, content-match), with its priority weight. -/
inductive DetectionPattern where
  | fileExists (file : String) (shouldExist : Bool) (priority : Nat)
  | packageJson (file : String) (re : JsRegex) (scope : DepScope)
      (priority : Nat)
  | contentMatch (file : String) (re : JsRegex) (priority : Nat)

/-- The pattern's `priority` weight. -/
def DetectionPattern.priority : DetectionPattern → Nat
  | .fileExists _ _ p => p
  | .packageJson _ _ _ p => p
  | .contentMatch _ _ p => p

/-- `FrameworkPattern`: a profile with name, patterns, optional excludes
and confidence threshold. -/
structure FrameworkPattern where
  name : String
  patterns : List DetectionPattern
  excludes : Option (List String) := none
  confidenceThreshold : ℚ

/-- `FrameworkScore` from `framework-detector.ts`. -/
structure FrameworkScore where
  framework : String
  score : ℚ
  evidence : List String

/-- `DetectionResult<Framework>`: `value` is `none` for the JS `null`. -/
structure DetectionResult where
  value : Option String
  confidence : ℚ
  evidence : List String
  alternatives : Option (List (String × ℚ)) := none

/-- A detection cache entry. -/
structure CacheEntry where
  result : DetectionResult
  timestamp : Int

/-- The project tree visible to the detector. -/
structure World where
  files : List (String × String)

/-- `fs.readFile` against the world. -/
def World.readFileW (w : World) (p : String) : Option String :=
  w.files.lookup p

/-- `fs.access`-based existence against the world. -/
def World.fileExistsW (w : World) (p : String) : Bool :=
  (w.files.lookup p).isSome

/-- `path.join(dir, file)` on POSIX-style paths. -/
def pathJoin (dir file : String) : String := dir ++ "/" ++ file

/-- `JSON.stringify` of a flat string record (no escaping is needed for
the dependency names and version ranges involved). -/
def jsonStringifyRecord (r : List (String × String)) : String :=
  "\x7b" ++
    String.intercalate ","
      (r.map (fun kv => "\"" ++ kv.1 ++ "\":\"" ++ kv.2 ++ "\"")) ++
    "\x7d"

/-- `getDeps` from `framework-detector.ts`: the selected scope, `both`
being the spread `{...dependencies, ...devDependencies}`. -/
def getDeps (pkg : PackageJson) : DepScope → List (String × String)
  | .both => recordMerge (pkg.dependencies.getD []) (pkg.devDependencies.getD [])
  | .dependencies => pkg.dependencies.getD []
  | .devDependencies => pkg.devDependencies.getD []

/-- The outcome of evaluating one pattern: whether it matched, the
evidence it contributes, and how many filesystem probes it issued. -/
structure PatternEval where
  matched : Bool
  evidence : List String
  probes : Nat

/-- One arm of the `switch` in `scoreFramework`. -/
def evalPattern (w : World) (projectPath : String) (pkg : Option PackageJson) :
    DetectionPattern → PatternEval
  | .fileExists file shouldExist _ =>
      let present := w.fileExistsW (pathJoin projectPath file)
      if present = shouldExist then
        { matched := true
          evidence := [if shouldExist then "Found " ++ file
            else "Confirmed " ++ file ++ " does not exist"]
          probes := 1 }
      else { matched := false, evidence := [], probes := 1 }
  | .packageJson _ re scope _ =>
      match pkg with
      | some p =>
          if re.test (jsonStringifyRecord (getDeps p scope)) then
            { matched := true
              evidence := ["Pattern matched in " ++ scope.label]
              probes := 0 }
          else { matched := false, evidence := [], probes := 0 }
      | none => { matched := false, evidence := [], probes := 0 }
  | .contentMatch file re _ =>
      match w.readFileW (pathJoin projectPath file) with
      | some content =>
          if re.test content then
            { matched := true
              evidence := ["Pattern matched in " ++ file]
              probes := 1 }
          else { matched := false, evidence := [], probes := 1 }
      | none => { matched := false, evidence := [], probes := 1 }

/-- The running accumulators of `scoreFramework`'s pattern loop. -/
structure ScoreAcc where
  total : Nat
  maxScore : Nat
  evidence : List String
  probes : Nat

/-- The pattern loop of `scoreFramework`: accumulate matched priority,
total priority, evidence (in pattern order) and probes. -/
def scorePatterns (w : World) (projectPath : String) (pkg : Option PackageJson) :
    List DetectionPattern → ScoreAcc
  | [] => ⟨0, 0, [], 0⟩
  | p :: ps =>
      let e := evalPattern w projectPath pkg p
      let rest := scorePatterns w projectPath pkg ps
      ⟨(if e.matched then p.priority else 0) + rest.total,
       p.priority + rest.maxScore,
       e.evidence ++ rest.evidence,
       e.probes + rest.probes⟩

/-- `scoreFramework` from `framework-detector.ts`: normalized score
`totalScore / maxScore` (or `0` on an empty maximum), with its probe
count. -/
def scoreFramework (w : World) (projectPath : String) (fp : FrameworkPattern)
    (pkg : Option PackageJson) : FrameworkScore × Nat :=
  let acc := scorePatterns w projectPath pkg fp.patterns
  ({ framework := fp.name
     score := if 0 < acc.maxScore then (acc.total : ℚ) / (acc.maxScore : ℚ) else 0
     evidence := acc.evidence }, acc.probes)

/-- `readPackageJson`: one `readFile` probe; a missing or unparsable
manifest is `none`. -/
def readPackageJson (w : World) (parse : String → Option PackageJson)
    (projectPath : String) : Option PackageJson × Nat :=
  match w.readFileW (pathJoin projectPath "package.json") with
  | some content => (parse content, 1)
  | none => (none, 1)

/-- The `FRAMEWORK_PATTERNS` catalogue from `framework-detector.ts`. -/
def FRAMEWORK_PATTERNS : List FrameworkPattern :=
  [{ name := "Next.js"
     patterns :=
       [.packageJson "package.json" (depKeyRegex "next") .both 10,
        .fileExists "next.config.js" true 8,
        .fileExists "next.config.mjs" true 8,
        .fileExists "next.config.ts" true 8]
     confidenceThreshold := 0.5 },
   { name := "Remix"
     patterns :=
       [.packageJson "package.json" (depKeyRegex "@remix-run/node") .both 10,
        .fileExists "remix.config.js" true 8,
        .fileExists "remix.config.ts" true 8]
     confidenceThreshold := 0.5 },
   { name := "SvelteKit"
     patterns :=
       [.packageJson "package.json" (depKeyRegex "@sveltejs/kit") .both 10,
        .fileExists "svelte.config.js" true 8]
     confidenceThreshold := 0.5 },
   { name := "Nuxt"
     patterns :=
       [.packageJson "package.json" (depKeyRegex "nuxt") .both 10,
        .fileExists "nuxt.config.ts" true 8,
        .fileExists "nuxt.config.js" true 8]
     confidenceThreshold := 0.5 },
   { name := "Vite + React"
     patterns :=
       [.packageJson "package.json" (depKeyRegex "vite") .both 5,
        .packageJson "package.json" (depKeyRegex "react") .both 5]
     excludes := some ["Next.js", "Remix", "SvelteKit", "Nuxt"]
     confidenceThreshold := 0.6 },
   { name := "Vite + Vue"
     patterns :=
       [.packageJson "package.json" (depKeyRegex "vite") .both 5,
        .packageJson "package.json" (depKeyRegex "vue") .both 5]
     confidenceThreshold := 0.6 },
   { name := "Vite + Svelte"
     patterns :=
       [.packageJson "package.json" (depKeyRegex "vite") .both 5,
        .packageJson "package.json" (depKeyRegex "svelte") .both 5]
     confidenceThreshold := 0.6 },
   { name := "Astro"
     patterns := [.packageJson "package.json" (depKeyRegex "astro") .both 10]
     confidenceThreshold := 0.5 },
   { name := "Gatsby"
     patterns := [.packageJson "package.json" (depKeyRegex "gatsby") .both 10]
     confidenceThreshold := 0.5 },
   { name := "Angular"
     patterns := [.fileExists "angular.json" true 10]
     confidenceThreshold := 0.5 }]

/-- The `BACKEND_FRAMEWORKS` catalogue from `framework-detector.ts`. -/
def BACKEND_FRAMEWORKS : List FrameworkPattern :=
  [{ name := "Express"
     patterns := [.packageJson "package.json" (depKeyRegex "express") .dependencies 10]
     confidenceThreshold := 0.5 },
   { name := "Fastify"
     patterns := [.packageJson "package.json" (depKeyRegex "fastify") .dependencies 10]
     confidenceThreshold := 0.5 },
   { name := "Hono"
     patterns := [.packageJson "package.json" (depKeyRegex "hono") .dependencies 10]
     confidenceThreshold := 0.5 },
   { name := "Koa"
     patterns := [.packageJson "package.json" (depKeyRegex "koa") .dependencies 10]
     confidenceThreshold := 0.5 },
   { name := "NestJS"
     patterns := [.packageJson "package.json" (depKeyRegex "@nestjs/core") .dependencies 10]
     confidenceThreshold := 0.5 }]

/-- A `FrameworkDetector` instance: TTL, pattern list, cache map. -/
structure Detector where
  cache : List (String × CacheEntry)
  cacheTtl : Int
  patterns : List FrameworkPattern

/-- `buildPatternList`: framework catalogue, then backend catalogue when
enabled, then custom patterns. -/
def buildPatternList (includeBackend : Bool)
    (customPatterns : Option (List FrameworkPattern)) : List FrameworkPattern :=
  (FRAMEWORK_PATTERNS ++ (if includeBackend then BACKEND_FRAMEWORKS else []))
    ++ customPatterns.getD []

/-- A freshly constructed `new FrameworkDetector()` with default options:
empty cache, five-minute TTL, backend catalogue included. -/
def defaultDetector : Detector :=
  { cache := [], cacheTtl := 300000, patterns := buildPatternList true none }

/-- `Map.prototype.delete` on the cache. -/
def cacheDelete (key : String) :
    List (String × CacheEntry) → List (String × CacheEntry)
  | [] => []
  | kv :: rest => if kv.1 = key then rest else kv :: cacheDelete key rest

/-- `Map.prototype.set` on the cache: replace in place or append. -/
def cacheSet (key : String) (v : CacheEntry) :
    List (String × CacheEntry) → List (String × CacheEntry)
  | [] => [(key, v)]
  | kv :: rest => if kv.1 = key then (key, v) :: rest else kv :: cacheSet key v rest

/-- `getFromCache`: a hit returns the stored result; an entry older than
the TTL is lazily deleted and reported absent. -/
def getFromCache (d : Detector) (now : Int) (key : String) :
    Option DetectionResult × List (String × CacheEntry) :=
  match d.cache.lookup key with
  | none => (none, d.cache)
  | some entry =>
      if now - entry.timestamp > d.cacheTtl then (none, cacheDelete key d.cache)
      else (some entry.result, d.cache)

/-- Stable descending insertion by score: the unique stable sort agreeing
with `results.sort((a, b) => b.score - a.score)`. -/
def insertScoreDesc (x : FrameworkScore) :
    List FrameworkScore → List FrameworkScore
  | [] => [x]
  | y :: ys => if x.score < y.score then y :: insertScoreDesc x ys else x :: y :: ys

/-- Stable sort of scores in descending score order. -/
def sortScoresDesc : List FrameworkScore → List FrameworkScore
  | [] => []
  | x :: xs => insertScoreDesc x (sortScoresDesc xs)

/-- The profile loop of `detectWithScore`: score every profile, keeping
those whose score reaches their own threshold, and total the probes. -/
def collectScores (w : World) (projectPath : String) (pkg : Option PackageJson) :
    List FrameworkPattern → List FrameworkScore × Nat
  | [] => ([], 0)
  | fp :: fps =>
      let (s, pr) := scoreFramework w projectPath fp pkg
      let (rest, prs) := collectScores w projectPath pkg fps
      (if fp.confidenceThreshold ≤ s.score then s :: rest else rest, pr + prs)

/-- The result of one `detectWithScore` call: the returned scores, the
detector with its updated cache, and the filesystem probes performed. -/
structure ScoreOutcome where
  scores : List FrameworkScore
  detector : Detector
  probes : Nat

/-- The cache-miss body of `detectWithScore`: read the manifest, score and
filter every profile, sort descending, and cache the best result (stamped
`now`) when one exists. -/
def detectCore (parse : String → Option PackageJson) (w : World) (now : Int)
    (d : Detector) (projectPath : String) : ScoreOutcome :=
  let (pkg, pkgProbes) := readPackageJson w parse projectPath
  let (results, scoreProbes) := collectScores w projectPath pkg d.patterns
  let sorted := sortScoresDesc results
  match sorted with
  | [] => { scores := [], detector := d, probes := pkgProbes + scoreProbes }
  | top :: _ =>
      let best : DetectionResult :=
        { value := some top.framework, confidence := top.score,
          evidence := top.evidence }
      let entry : CacheEntry := { result := best, timestamp := now }
      { scores := sorted
        detector := { d with cache := cacheSet projectPath entry d.cache }
        probes := pkgProbes + scoreProbes }

/-- `detectWithScore`: serve a fresh cached non-null result as a singleton
without touching the filesystem; otherwise run the full scoring body
(`getCacheKey` is the project path itself). -/
def detectWithScore (parse : String → Option PackageJson) (w : World)
    (now : Int) (d : Detector) (projectPath : String) : ScoreOutcome :=
  let (cached, cache1) := getFromCache d now projectPath
  match cached with
  | some cres =>
      match cres.value with
      | some v =>
          { scores := [{ framework := v, score := cres.confidence,
                         evidence := cres.evidence }]
            detector := { d with cache := cache1 }
            probes := 0 }
      | none => detectCore parse w now { d with cache := cache1 } projectPath
  | none => detectCore parse w now { d with cache := cache1 } projectPath

/-- `detect`: the head of `detectWithScore` as value/confidence/evidence
with the tail as alternatives, or the `Unknown` result on an empty list
(the source's unreachable `!top` guard yields the identical object). -/
def detect (parse : String → Option PackageJson) (w : World) (now : Int)
    (d : Detector) (projectPath : String) : DetectionResult × Detector × Nat :=
  let o := detectWithScore parse w now d projectPath
  match o.scores with
  | [] =>
      ({ value := some "Unknown", confidence := 0,
         evidence := ["No framework patterns matched"] }, o.detector, o.probes)
  | top :: rest =>
      ({ value := some top.framework, confidence := top.score,
         evidence := top.evidence
         alternatives := some (rest.map (fun s => (s.framework, s.score))) },
       o.detector, o.probes)

/-- `clearCache`. -/
def clearCache (d : Detector) : Detector := { d with cache := [] }

/-- Whether a pattern matches (the condition under which the source adds
its priority to `totalScore`). -/
def patternMatches (w : World) (projectPath : String) (pkg : Option PackageJson)
    (p : DetectionPattern) : Bool :=
  (evalPattern w projectPath pkg p).matched

/-- Spec-side formula ingredient: the summed priority of the matched
patterns of a list. -/
def matchedPrioritySum (w : World) (projectPath : String)
    (pkg : Option PackageJson) (ps : List DetectionPattern) : Nat :=
  ((ps.filter (patternMatches w projectPath pkg)).map DetectionPattern.priority).sum

/-- Spec-side formula ingredient: the summed priority of all patterns. -/
def totalPrioritySum (ps : List DetectionPattern) : Nat :=
  (ps.map DetectionPattern.priority).sum

/-! ### Concrete project worlds -/

/-- A project directory containing only `angular.json` (no manifest). -/
def angularWorld : World := ⟨[("/proj/angular.json", "")]⟩

/-- An empty project directory. -/
def emptyWorld : World := ⟨[]⟩

/-- A parse oracle for worlds whose manifests never parse (or are never
read). -/
def noParse : String → Option PackageJson := fun _ => none

/-- The parsed manifest `{"dependencies": {"vite": "^5.0.0",
"react": "^18.2.0"}}`. -/
def viteReactPkg : PackageJson :=
  { dependencies := some [("vite", "^5.0.0"), ("react", "^18.2.0")] }

/-- The raw text of that manifest. -/
def viteReactManifest : String :=
  "\x7b\"dependencies\":\x7b\"vite\":\"^5.0.0\",\"react\":\"^18.2.0\"\x7d\x7d"

/-- A project directory holding only that manifest. -/
def viteReactWorld : World := ⟨[("/proj/package.json", viteReactManifest)]⟩

/-- `JSON.parse` restricted to the texts occurring in `viteReactWorld`. -/
def viteReactParse : String → Option PackageJson := fun c =>
  if c = viteReactManifest then some viteReactPkg else none

/-- The file names of every `file-exists` pattern in the default
catalogue. -/
def catalogueConfigFiles : List String :=
  ["next.config.js", "next.config.mjs", "next.config.ts",
   "remix.config.js", "remix.config.ts", "svelte.config.js",
   "nuxt.config.ts", "nuxt.config.js", "angular.json"]

/-- The cache entry holding a best score, stamped at a time. -/
def bestEntry (top : FrameworkScore) (now : Int) : CacheEntry :=
  { result := { value := some top.framework, confidence := top.score,
                evidence := top.evidence }
    timestamp := now }

/-- The commands used to witness the parallel-execution grouping claim. -/
def parallelCmds : List CommandDefinition :=
  [{ id := "a", command := "cmd1" }, { id := "b", command := "cmd2" },
   { id := "c", command := "cmd3" }, { id := "d", command := "cmd4" }]

/-- An environment in which `cmd2` always fails and everything else
resolves immediately. -/
def parallelSpawn : String → Nat → SpawnOutcome := fun cmd _ =>
  if cmd = "cmd2" then .rejected false false none (some "boom") 1
  else .resolved "" "" 1

/-! ## Container lifecycle manager (`src/services/docker/docker-manager.ts`)

The container engine is modelled by a `DockerWorld` oracle giving the
outcome of each probe and engine action during one `setup`/`create` run
(the probes are pure within a run).  Every operation returns its
result — a value or the thrown `DaemonError` — together with the ordered
trace of engine interactions and lifecycle callbacks it performed. -/

/-- The manager's configuration fields the modelled operations read
(`buildCreateArgs`'s argument assembly is invisible to these claims). -/
structure DockerConfig where
  imageName : String
  containerName : String
  buildContext : String

/-- The default `DockerManager` configuration (`daemon-tools` image and
container; the build context is the environment-dependent `bin`
directory under the process working directory). -/
def defaultDockerConfig : DockerConfig :=
  { imageName := "daemon-tools", containerName := "daemon-tools",
    buildContext := "bin" }

/-- What the container engine reports and does during one run. -/
structure DockerWorld where
  engineUp : Bool
  imageBuilt : Bool
  buildSucceeds : Bool
  buildErrMsg : String
  containerRunning : Bool
  containerPresent : Bool
  startSucceeds : Bool
  startErrMsg : String
  createSucceeds : Bool
  createErrMsg : String

/-- One observable engine interaction or lifecycle callback. -/
inductive DockerEvent where
  | probeEngine
  | probeImage
  | cbBuildStart
  | runBuild
  | cbBuildComplete
  | cbBuildError
  | probeContainerRunning
  | probeContainerExists
  | engineStart
  | engineCreate
deriving DecidableEq, Repr

/-- `new ImageBuildError(buildPath, buildReason)` (`docker.error.ts`):
code `DOCKER_003`. -/
def imageBuildError (buildPath buildReason : String)
    (options : Option DaemonErrorOptions) : DaemonError :=
  { DaemonError.make
      ("Docker image build failed for " ++ buildPath ++ ": " ++ buildReason)
      "DOCKER_003"
      (some { context := some (recordMerge
                [("buildPath", .str buildPath), ("buildReason", .str buildReason)]
                ((options.bind (·.context)).getD []))
              cause := options.bind (·.cause) }) with
    name := "ImageBuildError" }

/-- `new ContainerAlreadyExistsError(containerName)`: code `DOCKER_004`. -/
def containerAlreadyExistsError (containerName : String)
    (options : Option DaemonErrorOptions) : DaemonError :=
  { DaemonError.make ("Container already exists: " ++ containerName)
      "DOCKER_004"
      (some { context := some (recordMerge
                [("containerName", .str containerName)]
                ((options.bind (·.context)).getD []))
              cause := options.bind (·.cause) }) with
    name := "ContainerAlreadyExistsError" }

/-- `new ContainerStartError(containerName, reason)`: code `DOCKER_005`. -/
def containerStartError (containerName reason : String)
    (options : Option DaemonErrorOptions) : DaemonError :=
  { DaemonError.make
      ("Failed to start container " ++ containerName ++ ": " ++ reason)
      "DOCKER_005"
      (some { context := some (recordMerge
                [("containerName", .str containerName), ("reason", .str reason)]
                ((options.bind (·.context)).getD []))
              cause := options.bind (·.cause) }) with
    name := "ContainerStartError" }

/-- `new DockerDaemonUnavailableError(reason?)`: code `DOCKER_007`. -/
def dockerDaemonUnavailableError (reason : Option String)
    (options : Option DaemonErrorOptions) : DaemonError :=
  { DaemonError.make
      (match reason with
       | some r => "Docker daemon unavailable: " ++ r
       | none => "Docker daemon is not running or not accessible")
      "DOCKER_007" options with
    name := "DockerDaemonUnavailableError" }

/-- The statuses `setup` can report. -/
inductive SetupStatus where
  | running
  | started
  | created
  | built
deriving DecidableEq, Repr

/-- `DockerManager.create`: throw `ContainerAlreadyExistsError` when the
named container exists; otherwise issue `docker run`, wrapping a failure
as `ImageBuildError(imageName, 'Container creation failed: …')`. -/
def DockerManager.create (cfg : DockerConfig) (w : DockerWorld) :
    Except DaemonError Unit × List DockerEvent :=
  if w.containerPresent then
    (.error (containerAlreadyExistsError cfg.containerName none),
     [.probeContainerExists])
  else if w.createSucceeds then
    (.ok (), [.probeContainerExists, .engineCreate])
  else
    (.error (imageBuildError cfg.imageName
        ("Container creation failed: " ++ w.createErrMsg) none),
     [.probeContainerExists, .engineCreate])

/-- `DockerManager.start`: no-op when running; delegate to `create` when
the container is absent; otherwise issue `docker start`, wrapping failure
as `ContainerStartError`. -/
def DockerManager.start (cfg : DockerConfig) (w : DockerWorld) :
    Except DaemonError Unit × List DockerEvent :=
  if w.containerRunning then (.ok (), [.probeContainerRunning])
  else if !w.containerPresent then
    let (r, ev) := DockerManager.create cfg w
    (r, .probeContainerRunning :: .probeContainerExists :: ev)
  else if w.startSucceeds then
    (.ok (), [.probeContainerRunning, .probeContainerExists, .engineStart])
  else
    (.error (containerStartError cfg.containerName w.startErrMsg none),
     [.probeContainerRunning, .probeContainerExists, .engineStart])

/-- `DockerManager.setup`: probe the engine (fatal
`DockerDaemonUnavailableError` when down); when the image is absent, call
`onBuildStart`, build, and either call `onBuildComplete` and return
`{status: 'built'}` immediately, or call `onBuildError` and rethrow the
`ImageBuildError`; when the image is present, return `running`, `started`
or `created` according to the container probes. -/
def DockerManager.setup (cfg : DockerConfig) (w : DockerWorld) :
    Except DaemonError SetupStatus × List DockerEvent :=
  if !w.engineUp then
    (.error (dockerDaemonUnavailableError none none), [.probeEngine])
  else if !w.imageBuilt then
    if w.buildSucceeds then
      (.ok .built,
       [.probeEngine, .probeImage, .cbBuildStart, .runBuild, .cbBuildComplete])
    else
      (.error (imageBuildError cfg.buildContext w.buildErrMsg none),
       [.probeEngine, .probeImage, .cbBuildStart, .runBuild, .cbBuildError])
  else if w.containerRunning then
    (.ok .running, [.probeEngine, .probeImage, .probeContainerRunning])
  else if w.containerPresent then
    let (r, ev) := DockerManager.start cfg w
    (r.map (fun _ => SetupStatus.started),
     [.probeEngine, .probeImage, .probeContainerRunning,
      .probeContainerExists] ++ ev)
  else
    let (r, ev) := DockerManager.create cfg w
    (r.map (fun _ => SetupStatus.created),
     [.probeEngine, .probeImage, .probeContainerRunning,
      .probeContainerExists] ++ ev)

/-- A world with the engine reachable, no image yet, a build that will
succeed, and no container (running or stopped); `docker run` would
succeed. -/
def freshEngineWorld : DockerWorld :=
  { engineUp := true, imageBuilt := false, buildSucceeds := true,
    buildErrMsg := "", containerRunning := false, containerPresent := false,
    startSucceeds := true, startErrMsg := "", createSucceeds := true,
    createErrMsg := "" }

/-- A world in which the container is absent and `docker run` fails. -/
def createFailWorld : DockerWorld :=
  { engineUp := true, imageBuilt := true, buildSucceeds := true,
    buildErrMsg := "", containerRunning := false, containerPresent := false,
    startSucceeds := true, startErrMsg := "", createSucceeds := false,
    createErrMsg := "docker run exploded" }

/-! ## Theorems

The claim theorems, their witnesses and counterexamples, and the
auxiliary lemmas they rely on, in dependency order. -/

/-- C9: for every `DaemonError` (any message, code, context, cause),
`DaemonError.fromJSON(e.toJSON())` produces an error whose `name`,
`message`, `code` and `context` equal those of `e`. -/
theorem daemonError_fromJSON_toJSON_roundtrip (e : DaemonError) :
    (DaemonError.fromJSON e.toJSON).name = e.name ∧
    (DaemonError.fromJSON e.toJSON).message = e.message ∧
    (DaemonError.fromJSON e.toJSON).code = e.code ∧
    (DaemonError.fromJSON e.toJSON).context = e.context := by
  simp [DaemonError.toJSON, DaemonError.fromJSON, DaemonError.make,
    asString, asContext, List.lookup]

/-- C1: code bug witness evaluation.  With `retries = 2` against an
environment that fails the first two attempts and succeeds on the third,
`execute` resolves to a success value — but its `attempts` field is `1`,
not `3`: `executeSingle` hardcodes `attempts: 1` in the success result
and the loop's own attempt counter is never copied into it. -/
theorem execute_failTwiceThenSucceed_reports_one_attempt :
    CommandExecutor.execute defaultCommandExecutor failTwiceThenSucceed
        "npm test" { retries := some 2 } =
      Except.ok { success := true, stdout := "done", stderr := "",
                  exitCode := some 0, duration := 5, command := "npm test",
                  attempts := 1 } := by
  rfl

/-- Slicing by a positive group size partitions the command list. -/
theorem sliceGroups_flatten {α : Type} :
    ∀ (c : Nat), 0 < c → ∀ (l : List α), (sliceGroups c l).flatten = l
  | _, _, [] => by simp [sliceGroups]
  | 0, h, _ :: _ => absurd h (by omega)
  | c + 1, h, x :: xs => by
      rw [sliceGroups]
      rw [List.flatten_cons]
      rw [sliceGroups_flatten (c + 1) h ((x :: xs).drop (c + 1))]
      exact List.take_append_drop (c + 1) (x :: xs)
termination_by c _ l => l.length
decreasing_by simp; omega

/-- Every slice produced by `sliceGroups` has at most `c` elements. -/
theorem sliceGroups_length_le {α : Type} :
    ∀ (c : Nat) (l : List α), ∀ g ∈ sliceGroups c l, g.length ≤ c
  | _, [], g, hg => by simp [sliceGroups] at hg
  | 0, _ :: _, g, hg => by simp [sliceGroups] at hg
  | c + 1, x :: xs, g, hg => by
      rw [sliceGroups] at hg
      rcases List.mem_cons.mp hg with h | h
      · subst h; simpa using List.length_take_le (c + 1) (x :: xs)
      · exact sliceGroups_length_le (c + 1) ((x :: xs).drop (c + 1)) g h
termination_by c l => l.length
decreasing_by simp; omega

/-- Once `shouldStop` is raised, no further group runs. -/
theorem processGroups_stopped (exec : CommandExecutor)
    (spawn : String → Nat → SpawnOutcome) (stopOnError : Bool)
    (gs : List (List CommandDefinition)) :
    processGroups exec spawn stopOnError true gs = [] := by
  cases gs <;> simp [processGroups]

/-- With `stopOnError`, the recorded results are exactly those of the
groups up to and including the first group containing a failure. -/
theorem processGroups_stopOnError_eq (exec : CommandExecutor)
    (spawn : String → Nat → SpawnOutcome)
    (gs : List (List CommandDefinition)) :
    processGroups exec spawn true false gs =
      ((gs.take (gs.findIdx
          (fun g => (runGroup exec spawn g).any (fun r => !r.2.success)) + 1)).map
        (runGroup exec spawn)).flatten := by
  induction gs with
  | nil => simp [processGroups]
  | cons g gs ih =>
      by_cases hg : (runGroup exec spawn g).any (fun r => !r.2.success) = true
      · simp [processGroups, hg, processGroups_stopped, List.findIdx_cons]
      · simp only [Bool.not_eq_true] at hg
        simp [processGroups, hg, List.findIdx_cons, ih]

/-- C7: `executeParallel` slices the commands into consecutive groups of
`concurrency` (each of size at most `concurrency`, jointly exhausting the
list in order); with `stopOnError = true` the recorded results are exactly
the full runs of every group up to and including the group with the first
failure — every command of that group still runs and receives an entry —
and no command of any later group is executed. -/
theorem executeParallel_stopOnError_group_semantics
    (exec : CommandExecutor) (spawn : String → Nat → SpawnOutcome)
    (commands : List CommandDefinition) (c : Nat) (hc : 0 < c) :
    (sliceGroups c commands).flatten = commands ∧
    (∀ g ∈ sliceGroups c commands, g.length ≤ c) ∧
    (CommandExecutor.executeParallel exec spawn commands (some c) true).results =
      (((sliceGroups c commands).take ((sliceGroups c commands).findIdx
          (fun g => (runGroup exec spawn g).any (fun r => !r.2.success)) + 1)).map
        (runGroup exec spawn)).flatten := by
  refine ⟨sliceGroups_flatten c hc commands,
    sliceGroups_length_le c commands, ?_⟩
  simp [CommandExecutor.executeParallel, processGroups_stopOnError_eq]

/-- The loop's `totalScore` is the matched-priority sum. -/
theorem scorePatterns_total (w : World) (projectPath : String)
    (pkg : Option PackageJson) (ps : List DetectionPattern) :
    (scorePatterns w projectPath pkg ps).total =
      matchedPrioritySum w projectPath pkg ps := by
  induction ps with
  | nil => rfl
  | cons p ps ih =>
      simp only [scorePatterns, matchedPrioritySum, List.filter_cons]
      cases h : patternMatches w projectPath pkg p with
      | true =>
          simp only [patternMatches] at h
          simp [h, ih, matchedPrioritySum]
      | false =>
          simp only [patternMatches] at h
          simp [h, ih, matchedPrioritySum]

/-- The loop's `maxScore` is the total-priority sum. -/
theorem scorePatterns_maxScore (w : World) (projectPath : String)
    (pkg : Option PackageJson) (ps : List DetectionPattern) :
    (scorePatterns w projectPath pkg ps).maxScore = totalPrioritySum ps := by
  induction ps with
  | nil => rfl
  | cons p ps ih => simp [scorePatterns, totalPrioritySum, ih]

/-- `totalScore` never exceeds `maxScore`. -/
theorem scorePatterns_total_le (w : World) (projectPath : String)
    (pkg : Option PackageJson) (ps : List DetectionPattern) :
    (scorePatterns w projectPath pkg ps).total ≤
      (scorePatterns w projectPath pkg ps).maxScore := by
  induction ps with
  | nil => simp [scorePatterns]
  | cons p ps ih =>
      simp only [scorePatterns]
      cases (evalPattern w projectPath pkg p).matched <;> simp <;> omega

/-- C4: for every profile, project world and manifest, the computed score
is the summed priority of the matched patterns divided by the summed
priority of all the profile's patterns (0 for a pattern-less profile),
and it always lies in [0, 1]. -/
theorem scoreFramework_confidence_formula (w : World) (projectPath : String)
    (fp : FrameworkPattern) (pkg : Option PackageJson) :
    (scoreFramework w projectPath fp pkg).1.score =
      (if totalPrioritySum fp.patterns = 0 then 0
       else (matchedPrioritySum w projectPath pkg fp.patterns : ℚ) /
         (totalPrioritySum fp.patterns : ℚ)) ∧
    0 ≤ (scoreFramework w projectPath fp pkg).1.score ∧
    (scoreFramework w projectPath fp pkg).1.score ≤ 1 ∧
    (fp.patterns = [] → (scoreFramework w projectPath fp pkg).1.score = 0) := by
  have ht := scorePatterns_total w projectPath pkg fp.patterns
  have hm := scorePatterns_maxScore w projectPath pkg fp.patterns
  have hle := scorePatterns_total_le w projectPath pkg fp.patterns
  rw [ht, hm] at hle
  simp only [scoreFramework, ht, hm]
  by_cases h : totalPrioritySum fp.patterns = 0
  · simp [h]
  · have hpos : 0 < totalPrioritySum fp.patterns := Nat.pos_of_ne_zero h
    have hq : (0 : ℚ) < (totalPrioritySum fp.patterns : ℚ) := by
      exact_mod_cast hpos
    rw [if_pos hpos, if_neg h]
    refine ⟨rfl, by positivity, ?_, ?_⟩
    · rw [div_le_one hq]
      exact_mod_cast hle
    · intro hnil
      rw [hnil] at hpos
      simp [totalPrioritySum] at hpos

/-- Membership in a descending insertion. -/
theorem mem_insertScoreDesc {x z : FrameworkScore} {l : List FrameworkScore} :
    z ∈ insertScoreDesc x l ↔ z = x ∨ z ∈ l := by
  induction l with
  | nil => simp [insertScoreDesc]
  | cons y ys ih =>
      by_cases h : x.score < y.score
      · simp only [insertScoreDesc, if_pos h, List.mem_cons, ih]
        tauto
      · simp [insertScoreDesc, if_neg h]

/-- Descending insertion preserves descending sortedness. -/
theorem sorted_insertScoreDesc (x : FrameworkScore) (l : List FrameworkScore)
    (h : List.Sorted (fun a b => b.score ≤ a.score) l) :
    List.Sorted (fun a b => b.score ≤ a.score) (insertScoreDesc x l) := by
  induction l with
  | nil => simp [insertScoreDesc]
  | cons y ys ih =>
      rw [List.sorted_cons] at h
      obtain ⟨hy, hys⟩ := h
      by_cases hxy : x.score < y.score
      · rw [insertScoreDesc, if_pos hxy, List.sorted_cons]
        refine ⟨?_, ih hys⟩
        intro z hz
        rcases mem_insertScoreDesc.mp hz with rfl | hz
        · exact le_of_lt hxy
        · exact hy z hz
      · rw [insertScoreDesc, if_neg hxy, List.sorted_cons]
        refine ⟨?_, List.sorted_cons.mpr ⟨hy, hys⟩⟩
        intro z hz
        rcases List.mem_cons.mp hz with rfl | hz
        · exact not_lt.mp hxy
        · exact le_trans (hy z hz) (not_lt.mp hxy)

/-- The stable insertion sort produces a descending list. -/
theorem sorted_sortScoresDesc (l : List FrameworkScore) :
    List.Sorted (fun a b => b.score ≤ a.score) (sortScoresDesc l) := by
  induction l with
  | nil => simp [sortScoresDesc]
  | cons x xs ih => exact sorted_insertScoreDesc x (sortScoresDesc xs) ih

/-- The scores produced by the cache-miss body are the sorted filtered
profile scores. -/
theorem detectCore_scores (parse : String → Option PackageJson) (w : World)
    (now : Int) (d : Detector) (projectPath : String) :
    (detectCore parse w now d projectPath).scores =
      sortScoresDesc (collectScores w projectPath
        ((readPackageJson w parse projectPath).1) d.patterns).1 := by
  unfold detectCore
  split
  split
  rename_i cspair results prs heq
  cases hs : sortScoresDesc results <;> simp_all

/-- C5: the list returned by `detectWithScore` is sorted in descending
score order, and whenever it is non-empty, `detect` returns exactly its
head as value/confidence/evidence with the remaining entries (in order)
as the alternatives. -/
theorem detectWithScore_sorted_and_detect_head
    (parse : String → Option PackageJson) (w : World) (now : Int)
    (d : Detector) (projectPath : String) :
    List.Sorted (fun a b => b.score ≤ a.score)
      (detectWithScore parse w now d projectPath).scores ∧
    (∀ top rest,
      (detectWithScore parse w now d projectPath).scores = top :: rest →
      (detect parse w now d projectPath).1.value = some top.framework ∧
      (detect parse w now d projectPath).1.confidence = top.score ∧
      (detect parse w now d projectPath).1.evidence = top.evidence ∧
      (detect parse w now d projectPath).1.alternatives =
        some (rest.map (fun s => (s.framework, s.score)))) := by
  constructor
  · unfold detectWithScore
    split
    · rename_i cres cache1 heq
      split
      · split
        · simp
        · rw [detectCore_scores]
          exact sorted_sortScoresDesc _
      · rw [detectCore_scores]
        exact sorted_sortScoresDesc _
  · intro top rest h
    simp [detect, h]

/-- C8 counterexample: a project directory with no manifest but with an
`angular.json` detects `Angular` at confidence 1, not
`Unknown`/0/`['No framework patterns matched']` as the claim states for
every manifest-less directory. -/
theorem detect_no_manifest_angular_counterexample :
    angularWorld.readFileW (pathJoin "/proj" "package.json") = none ∧
    (detect noParse angularWorld 0 defaultDetector "/proj").1.value =
      some "Angular" ∧
    (detect noParse angularWorld 0 defaultDetector "/proj").1.confidence = 1 := by
  refine ⟨rfl, ?_, ?_⟩ <;>
    norm_num +decide [detect, detectWithScore, detectCore, getFromCache,
      defaultDetector, buildPatternList, FRAMEWORK_PATTERNS, BACKEND_FRAMEWORKS,
      collectScores, scoreFramework, scorePatterns, evalPattern, readPackageJson,
      World.readFileW, World.fileExistsW, pathJoin, jsonStringifyRecord, getDeps,
      sortScoresDesc, insertScoreDesc, cacheSet, DepScope.label,
      DetectionPattern.priority, noParse, angularWorld, List.lookup]

/-- C8 amended: for a project directory whose manifest is missing or
unparsable and in which none of the catalogue's `file-exists` config
files are present, `detect` (which is total, hence never throws) returns
the `Unknown` result with confidence 0 and evidence
`['No framework patterns matched']`; the missing and malformed manifest
cases are literally the same hypothesis (`readPackageJson` yields
`none`). -/
theorem detect_no_manifest_no_config_unknown
    (parse : String → Option PackageJson) (w : World) (now : Int) (pp : String)
    (hpkg : (readPackageJson w parse pp).1 = none)
    (hcfg : ∀ f ∈ catalogueConfigFiles, w.fileExistsW (pathJoin pp f) = false) :
    (detect parse w now defaultDetector pp).1 =
      { value := some "Unknown", confidence := 0,
        evidence := ["No framework patterns matched"] } := by
  have hrp : readPackageJson w parse pp = (none, 1) := by
    have h2 : (readPackageJson w parse pp).2 = 1 := by
      unfold readPackageJson
      cases w.readFileW (pathJoin pp "package.json") <;> rfl
    rw [Prod.ext_iff]
    exact ⟨hpkg, h2⟩
  have c1 := hcfg "next.config.js" (by simp [catalogueConfigFiles])
  have c2 := hcfg "next.config.mjs" (by simp [catalogueConfigFiles])
  have c3 := hcfg "next.config.ts" (by simp [catalogueConfigFiles])
  have c4 := hcfg "remix.config.js" (by simp [catalogueConfigFiles])
  have c5 := hcfg "remix.config.ts" (by simp [catalogueConfigFiles])
  have c6 := hcfg "svelte.config.js" (by simp [catalogueConfigFiles])
  have c7 := hcfg "nuxt.config.ts" (by simp [catalogueConfigFiles])
  have c8 := hcfg "nuxt.config.js" (by simp [catalogueConfigFiles])
  have c9 := hcfg "angular.json" (by simp [catalogueConfigFiles])
  norm_num +decide [detect, detectWithScore, detectCore, getFromCache,
    defaultDetector, buildPatternList, FRAMEWORK_PATTERNS, BACKEND_FRAMEWORKS,
    collectScores, scoreFramework, scorePatterns, evalPattern, hrp,
    c1, c2, c3, c4, c5, c6, c7, c8, c9,
    sortScoresDesc, insertScoreDesc, DepScope.label,
    DetectionPattern.priority, List.lookup]

/-- C8 amended, witnessed at the empty project directory. -/
theorem detect_no_manifest_no_config_unknown_witness :
    (detect noParse emptyWorld 0 defaultDetector "/proj").1 =
      { value := some "Unknown", confidence := 0,
        evidence := ["No framework patterns matched"] } :=
  detect_no_manifest_no_config_unknown noParse emptyWorld 0 "/proj" rfl
    (by decide)

/-- C2: code bug witness evaluation.  In a project whose manifest declares
exactly `vite` and `react`, the `Vite + React` profile — which declares
`excludes: ['Next.js', 'Remix', 'SvelteKit', 'Nuxt']` while `Next.js` is
present in the evaluated catalogue — is not suppressed: it is returned by
`detectWithScore` and becomes `detect`'s value.  No code path of
`framework-detector.ts` ever reads the `excludes` field. -/
theorem vite_react_returned_despite_excludes :
    ((detectWithScore viteReactParse viteReactWorld 0 defaultDetector
        "/proj").scores.map (fun s => s.framework)) = ["Vite + React"] ∧
    (detect viteReactParse viteReactWorld 0 defaultDetector "/proj").1.value =
      some "Vite + React" ∧
    (∃ fp ∈ FRAMEWORK_PATTERNS, fp.name = "Vite + React" ∧
      fp.excludes = some ["Next.js", "Remix", "SvelteKit", "Nuxt"]) ∧
    (∃ fp ∈ FRAMEWORK_PATTERNS, fp.name = "Next.js") := by
  refine ⟨?_, ?_, ?_, ?_⟩
  · norm_num +decide [detect, detectWithScore, detectCore, getFromCache,
      defaultDetector, buildPatternList, FRAMEWORK_PATTERNS, BACKEND_FRAMEWORKS,
      collectScores, scoreFramework, scorePatterns, evalPattern, readPackageJson,
      World.readFileW, World.fileExistsW, pathJoin, jsonStringifyRecord, getDeps,
      recordMerge, sortScoresDesc, insertScoreDesc, cacheSet, DepScope.label,
      DetectionPattern.priority, viteReactParse, viteReactWorld, viteReactPkg,
      viteReactManifest, List.lookup]
  · norm_num +decide [detect, detectWithScore, detectCore, getFromCache,
      defaultDetector, buildPatternList, FRAMEWORK_PATTERNS, BACKEND_FRAMEWORKS,
      collectScores, scoreFramework, scorePatterns, evalPattern, readPackageJson,
      World.readFileW, World.fileExistsW, pathJoin, jsonStringifyRecord, getDeps,
      recordMerge, sortScoresDesc, insertScoreDesc, cacheSet, DepScope.label,
      DetectionPattern.priority, viteReactParse, viteReactWorld, viteReactPkg,
      viteReactManifest, List.lookup]
  · refine ⟨FRAMEWORK_PATTERNS[4], by simp [FRAMEWORK_PATTERNS], rfl, rfl⟩
  · exact ⟨FRAMEWORK_PATTERNS[0], by simp [FRAMEWORK_PATTERNS], rfl⟩

/-- `Map.set` followed by a lookup of the same key finds the new entry. -/
theorem lookup_cacheSet (key : String) (v : CacheEntry)
    (c : List (String × CacheEntry)) :
    (cacheSet key v c).lookup key = some v := by
  induction c with
  | nil => simp [cacheSet, List.lookup]
  | cons kv rest ih =>
      by_cases h : kv.1 = key
      · simp [cacheSet, h, List.lookup]
      · simp only [cacheSet, if_neg h, List.lookup]
        have hne : (key == kv.1) = false := by
          simp only [beq_eq_false_iff_ne]
          exact fun hk => h hk.symm
        simp [hne, ih]

/-- `readPackageJson` issues exactly one filesystem probe. -/
theorem readPackageJson_snd (w : World) (parse : String → Option PackageJson)
    (pp : String) : (readPackageJson w parse pp).2 = 1 := by
  unfold readPackageJson
  cases w.readFileW (pathJoin pp "package.json") <;> rfl

/-- The cache-miss body's probe count: the manifest read plus the pattern
probes. -/
theorem detectCore_probes (parse : String → Option PackageJson) (w : World)
    (now : Int) (d : Detector) (pp : String) :
    (detectCore parse w now d pp).probes =
      (readPackageJson w parse pp).2 +
        (collectScores w pp ((readPackageJson w parse pp).1) d.patterns).2 := by
  unfold detectCore
  split
  split
  rename_i cspair results prs heq
  cases hs : sortScoresDesc results <;> simp_all

/-- The cache-miss body either returns no scores and leaves the detector
unchanged, or returns a non-empty list and caches its head stamped
`now`. -/
theorem detectCore_cases (parse : String → Option PackageJson) (w : World)
    (now : Int) (d : Detector) (pp : String) :
    ((detectCore parse w now d pp).scores = [] ∧
      (detectCore parse w now d pp).detector = d) ∨
    (∃ top tail, (detectCore parse w now d pp).scores = top :: tail ∧
      (detectCore parse w now d pp).detector =
        { d with cache := cacheSet pp (bestEntry top now) d.cache }) := by
  unfold detectCore
  split
  split
  rename_i cspair results prs heq
  cases hs : sortScoresDesc results with
  | nil => left; simp [hs]
  | cons top tail =>
      right; exact ⟨top, tail, by simp [hs], by simp [hs, bestEntry]⟩

/-- On a cache miss `detectWithScore` is the cache-miss body. -/
theorem detectWithScore_of_cache_miss (parse : String → Option PackageJson)
    (w : World) (now : Int) (d : Detector) (pp : String)
    (hmiss : d.cache.lookup pp = none) :
    detectWithScore parse w now d pp = detectCore parse w now d pp := by
  unfold detectWithScore getFromCache
  simp [hmiss]

/-- On a fresh cache hit whose stored value is non-null,
`detectWithScore` returns the cached singleton with zero probes. -/
theorem detectWithScore_cache_hit (parse : String → Option PackageJson)
    (w : World) (now : Int) (d : Detector) (pp : String) (entry : CacheEntry)
    (v : String) (hl : d.cache.lookup pp = some entry)
    (hfresh : ¬ (now - entry.timestamp > d.cacheTtl))
    (hv : entry.result.value = some v) :
    detectWithScore parse w now d pp =
      { scores := [{ framework := v, score := entry.result.confidence,
                     evidence := entry.result.evidence }]
        detector := d
        probes := 0 } := by
  unfold detectWithScore getFromCache
  simp [hl, hfresh, hv]

/-- After `clearCache`, a `detectWithScore` call probes the filesystem
again (at least the manifest read). -/
theorem detectWithScore_clearCache_probes (parse : String → Option PackageJson)
    (w : World) (now : Int) (d : Detector) (pp : String) :
    1 ≤ (detectWithScore parse w now (clearCache d) pp).probes := by
  rw [detectWithScore_of_cache_miss parse w now (clearCache d) pp rfl]
  rw [detectCore_probes]
  rw [readPackageJson_snd]
  omega

/-- C6 amended: when a `detect`/`detectWithScore` call for a path not in
the cache produces at least one scoring result, a second call within the
TTL performs zero filesystem probes and is served from the cache; and
after `clearCache()` a subsequent call probes the filesystem again. -/
theorem detect_second_call_within_ttl_no_probes
    (parse : String → Option PackageJson) (w : World) (d : Detector)
    (pp : String) (now1 now2 : Int)
    (hmiss : d.cache.lookup pp = none)
    (httl : now2 - now1 ≤ d.cacheTtl)
    (top : FrameworkScore) (rest : List FrameworkScore)
    (hres : (detectWithScore parse w now1 d pp).scores = top :: rest) :
    (detectWithScore parse w now2
        ((detectWithScore parse w now1 d pp).detector) pp).probes = 0 ∧
    (detectWithScore parse w now2
        ((detectWithScore parse w now1 d pp).detector) pp).scores =
      [{ framework := top.framework, score := top.score,
         evidence := top.evidence }] ∧
    1 ≤ (detectWithScore parse w now2
        (clearCache ((detectWithScore parse w now1 d pp).detector)) pp).probes := by
  have hcm := detectWithScore_of_cache_miss parse w now1 d pp hmiss
  rw [hcm] at hres ⊢
  rcases detectCore_cases parse w now1 d pp with ⟨h1, _⟩ | ⟨top', tail', h1, h2⟩
  · rw [h1] at hres; cases hres
  · rw [h1] at hres
    injection hres with htop htail
    rw [htop] at h2
    rw [h2]
    have hhit := detectWithScore_cache_hit parse w now2
      { d with cache := cacheSet pp (bestEntry top now1) d.cache } pp
      (bestEntry top now1) top.framework
      (lookup_cacheSet pp (bestEntry top now1) d.cache)
      (by simp [bestEntry]; omega) rfl
    rw [hhit]
    exact ⟨rfl, rfl, detectWithScore_clearCache_probes parse w now2 _ pp⟩

/-- C6 counterexample: in an empty project directory the first `detect`
performs 10 filesystem probes, caches nothing (no profile scored), and a
second `detect` one millisecond later — well within the 300000 ms TTL —
performs the same 10 probes again instead of none. -/
theorem detect_second_call_probes_again_counterexample :
    (detect noParse emptyWorld 0 defaultDetector "/proj").2.2 = 10 ∧
    (detect noParse emptyWorld 1
        ((detect noParse emptyWorld 0 defaultDetector "/proj").2.1) "/proj").2.2
      = 10 ∧
    ((1 : Int) - 0 ≤ defaultDetector.cacheTtl) := by
  refine ⟨?_, ?_, by norm_num [defaultDetector]⟩ <;>
    norm_num +decide [detect, detectWithScore, detectCore, getFromCache,
      defaultDetector, buildPatternList, FRAMEWORK_PATTERNS, BACKEND_FRAMEWORKS,
      collectScores, scoreFramework, scorePatterns, evalPattern, readPackageJson,
      World.readFileW, World.fileExistsW, pathJoin, jsonStringifyRecord, getDeps,
      sortScoresDesc, insertScoreDesc, cacheSet, DepScope.label,
      DetectionPattern.priority, noParse, emptyWorld, List.lookup]

/-- C6 amended, witnessed at the Angular project: the first call misses
the cache and scores `Angular`, the second call one millisecond later
probes nothing and is served from the cache, and probing resumes after
`clearCache`. -/
theorem detect_second_call_within_ttl_no_probes_witness :
    (detectWithScore noParse angularWorld 1
        ((detectWithScore noParse angularWorld 0 defaultDetector
          "/proj").detector) "/proj").probes = 0 ∧
    (detectWithScore noParse angularWorld 1
        ((detectWithScore noParse angularWorld 0 defaultDetector
          "/proj").detector) "/proj").scores =
      [{ framework := "Angular", score := 1,
         evidence := ["Found angular.json"] }] ∧
    1 ≤ (detectWithScore noParse angularWorld 1
        (clearCache ((detectWithScore noParse angularWorld 0 defaultDetector
          "/proj").detector)) "/proj").probes :=
  detect_second_call_within_ttl_no_probes noParse angularWorld defaultDetector
    "/proj" 0 1 rfl (by norm_num [defaultDetector])
    { framework := "Angular", score := 1, evidence := ["Found angular.json"] }
    []
    (by norm_num +decide [detectWithScore, detectCore, getFromCache,
      defaultDetector, buildPatternList, FRAMEWORK_PATTERNS, BACKEND_FRAMEWORKS,
      collectScores, scoreFramework, scorePatterns, evalPattern, readPackageJson,
      World.readFileW, World.fileExistsW, pathJoin, jsonStringifyRecord, getDeps,
      sortScoresDesc, insertScoreDesc, cacheSet, DepScope.label,
      DetectionPattern.priority, noParse, angularWorld, List.lookup])

/-- C7, witnessed with four commands in groups of two whose first group
contains the failing `cmd2`. -/
theorem executeParallel_stopOnError_group_semantics_witness :
    (0 : Nat) < 2 ∧
    ((sliceGroups 2 parallelCmds).flatten = parallelCmds ∧
    (∀ g ∈ sliceGroups 2 parallelCmds, g.length ≤ 2) ∧
    (CommandExecutor.executeParallel defaultCommandExecutor parallelSpawn
        parallelCmds (some 2) true).results =
      (((sliceGroups 2 parallelCmds).take
          ((sliceGroups 2 parallelCmds).findIdx
            (fun g => (runGroup defaultCommandExecutor parallelSpawn g).any
              (fun r => !r.2.success)) + 1)).map
        (runGroup defaultCommandExecutor parallelSpawn)).flatten) :=
  ⟨by decide,
   executeParallel_stopOnError_group_semantics defaultCommandExecutor
     parallelSpawn parallelCmds 2 (by decide)⟩

/-- C5, witnessed at the Angular project (a non-empty score list). -/
theorem detectWithScore_sorted_and_detect_head_witness :
    List.Sorted (fun a b => b.score ≤ a.score)
      (detectWithScore noParse angularWorld 0 defaultDetector "/proj").scores ∧
    (detect noParse angularWorld 0 defaultDetector "/proj").1.value =
      some "Angular" :=
  ⟨(detectWithScore_sorted_and_detect_head noParse angularWorld 0
      defaultDetector "/proj").1,
   ((detectWithScore_sorted_and_detect_head noParse angularWorld 0
      defaultDetector "/proj").2
     { framework := "Angular", score := 1, evidence := ["Found angular.json"] }
     []
     (by norm_num +decide [detectWithScore, detectCore, getFromCache,
       defaultDetector, buildPatternList, FRAMEWORK_PATTERNS,
       BACKEND_FRAMEWORKS, collectScores, scoreFramework, scorePatterns,
       evalPattern, readPackageJson, World.readFileW, World.fileExistsW,
       pathJoin, jsonStringifyRecord, getDeps, sortScoresDesc, insertScoreDesc,
       cacheSet, DepScope.label, DetectionPattern.priority, noParse,
       angularWorld, List.lookup])).1⟩

/-- C3 counterexample: on a fresh machine (image absent, build succeeds,
no container, creation would succeed) `setup` returns `{status: 'built'}`
and performs no container bring-up at all — no container probe, no
creation — where the claim says the bring-up steps still occur after the
image-build branch. -/
theorem setup_built_skips_bringup_counterexample :
    (DockerManager.setup defaultDockerConfig freshEngineWorld).1 =
      .ok .built ∧
    DockerEvent.engineCreate ∉
      (DockerManager.setup defaultDockerConfig freshEngineWorld).2 ∧
    DockerEvent.probeContainerRunning ∉
      (DockerManager.setup defaultDockerConfig freshEngineWorld).2 :=
  ⟨rfl, by decide, by decide⟩

/-- C3 amended: `setup` throws `DockerDaemonUnavailableError` when the
engine probe fails; when the image is absent it calls `onBuildStart`,
builds, and — on success — calls `onBuildComplete` and returns
`{status: 'built'}` immediately, without any container bring-up (on
failure it routes the `ImageBuildError` through `onBuildError` and
rethrows it); only when the image was already present does it return
`running` for a running container, start a stopped one and return
`started`, or create a missing one and return `created`. -/
theorem setup_state_machine (cfg : DockerConfig) (w : DockerWorld) :
    (w.engineUp = false →
      (DockerManager.setup cfg w).1 =
        .error (dockerDaemonUnavailableError none none)) ∧
    (w.engineUp = true → w.imageBuilt = false → w.buildSucceeds = true →
      (DockerManager.setup cfg w).1 = .ok .built ∧
      (DockerManager.setup cfg w).2 =
        [.probeEngine, .probeImage, .cbBuildStart, .runBuild,
         .cbBuildComplete]) ∧
    (w.engineUp = true → w.imageBuilt = false → w.buildSucceeds = false →
      (DockerManager.setup cfg w).1 =
        .error (imageBuildError cfg.buildContext w.buildErrMsg none) ∧
      (DockerManager.setup cfg w).2 =
        [.probeEngine, .probeImage, .cbBuildStart, .runBuild,
         .cbBuildError]) ∧
    (w.engineUp = true → w.imageBuilt = true → w.containerRunning = true →
      (DockerManager.setup cfg w).1 = .ok .running) ∧
    (w.engineUp = true → w.imageBuilt = true → w.containerRunning = false →
      w.containerPresent = true → w.startSucceeds = true →
      (DockerManager.setup cfg w).1 = .ok .started) ∧
    (w.engineUp = true → w.imageBuilt = true → w.containerRunning = false →
      w.containerPresent = false → w.createSucceeds = true →
      (DockerManager.setup cfg w).1 = .ok .created) := by
  refine ⟨?_, ?_, ?_, ?_, ?_, ?_⟩ <;> intros <;>
    simp_all [DockerManager.setup, DockerManager.start, DockerManager.create,
      Except.map]

/-- C3 amended, witnessed on the fresh machine: the image-build branch is
taken, reports `built`, and its entire trace is the engine probe, the
image probe, and the build with its callbacks. -/
theorem setup_state_machine_witness :
    (DockerManager.setup defaultDockerConfig freshEngineWorld).1 =
      .ok .built ∧
    (DockerManager.setup defaultDockerConfig freshEngineWorld).2 =
      [.probeEngine, .probeImage, .cbBuildStart, .runBuild,
       .cbBuildComplete] :=
  (setup_state_machine defaultDockerConfig freshEngineWorld).2.1 rfl rfl rfl

/-- C10: when the named container does not exist and `docker run` fails,
`create` throws an `ImageBuildError` — name `ImageBuildError`, code
`DOCKER_003`, message `Docker image build failed for <image>: Container
creation failed: …` — rather than a container-creation-specific error;
and any `DOCKER_004` (`ContainerAlreadyExistsError`) thrown by `create`
implies the container already existed. -/
theorem create_error_classification (cfg : DockerConfig) (w : DockerWorld) :
    (w.containerPresent = false → w.createSucceeds = false →
      (DockerManager.create cfg w).1 =
        .error (imageBuildError cfg.imageName
          ("Container creation failed: " ++ w.createErrMsg) none) ∧
      (imageBuildError cfg.imageName
        ("Container creation failed: " ++ w.createErrMsg) none).name =
        "ImageBuildError" ∧
      (imageBuildError cfg.imageName
        ("Container creation failed: " ++ w.createErrMsg) none).code =
        "DOCKER_003" ∧
      (∃ tail, (imageBuildError cfg.imageName
        ("Container creation failed: " ++ w.createErrMsg) none).message =
          "Docker image build failed for " ++ tail)) ∧
    (∀ e, (DockerManager.create cfg w).1 = .error e →
      e.code = "DOCKER_004" → w.containerPresent = true) := by
  constructor
  · intro h1 h2
    refine ⟨by simp [DockerManager.create, h1, h2], rfl, rfl, ?_⟩
    refine ⟨cfg.imageName ++ (": " ++
      ("Container creation failed: " ++ w.createErrMsg)), ?_⟩
    simp [imageBuildError, DaemonError.make, String.append_assoc]
  · intro e he hcode
    by_cases hp : w.containerPresent = true
    · exact hp
    · simp only [Bool.not_eq_true] at hp
      exfalso
      by_cases hc : w.createSucceeds = true
      · simp [DockerManager.create, hp, hc] at he
      · simp only [Bool.not_eq_true] at hc
        simp [DockerManager.create, hp, hc] at he
        rw [← he] at hcode
        simp [imageBuildError, DaemonError.make] at hcode

/-- C10, witnessed in a world where the container is absent and
`docker run` fails. -/
theorem create_error_classification_witness :
    createFailWorld.containerPresent = false ∧
    createFailWorld.createSucceeds = false ∧
    ((DockerManager.create defaultDockerConfig createFailWorld).1 =
        .error (imageBuildError defaultDockerConfig.imageName
          ("Container creation failed: " ++ createFailWorld.createErrMsg)
          none) ∧
      (imageBuildError defaultDockerConfig.imageName
        ("Container creation failed: " ++ createFailWorld.createErrMsg)
        none).name = "ImageBuildError" ∧
      (imageBuildError defaultDockerConfig.imageName
        ("Container creation failed: " ++ createFailWorld.createErrMsg)
        none).code = "DOCKER_003" ∧
      (∃ tail, (imageBuildError defaultDockerConfig.imageName
        ("Container creation failed: " ++ createFailWorld.createErrMsg)
        none).message = "Docker image build failed for " ++ tail)) :=
  ⟨rfl, rfl,
   (create_error_classification defaultDockerConfig createFailWorld).1 rfl rfl⟩

end Daemon

